import Mathlib

/-!
Shallow embedding of the era5-tools vertical-remapping core
(src/era5/units_converter.py, src/era5/cf_netcdf.py, src/era5/vertical_remap.py)
together with theorems settling the specification claims about it.

Conventions of the embedding:
* Python floats are modelled by exact rationals (all the arithmetic the
  claims touch is affine, so no floating-point rounding is at issue).
* A Python function that can raise is modelled by a function into
  Option / a pair carrying an optional error code; the error codes mirror
  the Python exception classes the code distinguishes.
* In-place dataset mutation is modelled by explicit state passing; an
  operation returns the dataset state it leaves behind together with the
  optional error, because exception handlers in the source observe the
  partially mutated state.
-/

/-! ### Regular expressions, Python re.match semantics

The unit registry in units_converter.py keys its entries by regular
expressions, matched with re.match (anchored at the start of the string;
a final dollar matches at the end of the string or just before one
trailing newline). Only a small regex fragment occurs in the table:
literal characters, two-character classes, grouping, alternation, an
optional postfix question mark and the final dollar anchor. We embed that
fragment with a CPS backtracking matcher. -/

namespace Era5

inductive Re where
  | eps : Re
  | chr : Char → Re
  | cls : List Char → Re
  | alt : Re → Re → Re
  | cat : Re → Re → Re
  | opt : Re → Re
  | eol : Re
deriving DecidableEq, Repr

/-- Backtracking matcher: does some prefix of the character list match the
regex, with the continuation accepting the remaining suffix? -/
def Re.mt : Re → List Char → (List Char → Bool) → Bool
  | .eps, s, k => k s
  | .chr c, s, k =>
    match s with
    | [] => false
    | a :: rest => a == c && k rest
  | .cls cs, s, k =>
    match s with
    | [] => false
    | a :: rest => cs.contains a && k rest
  | .alt r₁ r₂, s, k => r₁.mt s k || r₂.mt s k
  | .cat r₁ r₂, s, k => r₁.mt s (fun s₂ => r₂.mt s₂ k)
  | .opt r, s, k => r.mt s k || k s
  | .eol, s, k => (s == [] || s == ['\n']) && k s

/-- Python re.match(pattern, s): the pattern must match a prefix of s
(anchored at the start, not necessarily reaching the end). -/
def pyMatch (r : Re) (s : String) : Bool :=
  r.mt s.data (fun _ => true)

/-- A sequence of literal characters. -/
def rstr (cs : List Char) : Re :=
  cs.foldr (fun c r => Re.cat (Re.chr c) r) Re.eps

/-! ### units_converter.py -/

/-- Dimensional type: integer exponents over the seven base dimensions
(class Units, units_converter.py lines 72-90). -/
structure Units where
  current : Int := 0
  distance : Int := 0
  intensity : Int := 0
  mass : Int := 0
  mole : Int := 0
  temperature : Int := 0
  time : Int := 0
deriving DecidableEq, Repr

/-- Units.__mul__: add exponents component-wise. -/
def Units.mul (x y : Units) : Units :=
  ⟨x.current + y.current, x.distance + y.distance, x.intensity + y.intensity,
   x.mass + y.mass, x.mole + y.mole, x.temperature + y.temperature,
   x.time + y.time⟩

/-- Units.__truediv__: subtract exponents component-wise. -/
def Units.div (x y : Units) : Units :=
  ⟨x.current - y.current, x.distance - y.distance, x.intensity - y.intensity,
   x.mass - y.mass, x.mole - y.mole, x.temperature - y.temperature,
   x.time - y.time⟩

instance : Mul Units := ⟨Units.mul⟩
instance : Div Units := ⟨Units.div⟩

def current : Units := { current := 1 }
def distance : Units := { distance := 1 }
def intensity : Units := { intensity := 1 }
def mass : Units := { mass := 1 }
def mole : Units := { mole := 1 }
def temperature : Units := { temperature := 1 }
def time : Units := { time := 1 }

def velocity : Units := distance / time
def acceleration : Units := velocity / time
def force : Units := mass * velocity
def area : Units := distance * distance
def volume : Units := distance * area
def pressure : Units := force / area

/-- Conversion namedtuple: (regex, factor, type). -/
structure Conversion where
  regex : Re
  factor : ℚ
  type : Units
deriving DecidableEq

/-- r"(m|[Mm]eter(s)?)$" -/
def meterRe : Re :=
  .cat (.alt (.chr 'm')
             (.cat (.cls ['M', 'm']) (.cat (rstr "eter".data) (.opt (.chr 's')))))
       .eol

/-- r"(atm|[Aa]tmosphere(s)?)$" -/
def atmRe : Re :=
  .cat (.alt (rstr "atm".data)
             (.cat (.cls ['A', 'a']) (.cat (rstr "tmosphere".data) (.opt (.chr 's')))))
       .eol

/-- r"[Bb]ar(s)?$" -/
def barRe : Re :=
  .cat (.cls ['B', 'b']) (.cat (rstr "ar".data) (.cat (.opt (.chr 's')) .eol))

/-- r"([Dd]eci)bar(s)$" — note: the trailing s is NOT optional here,
unlike every other entry of the table. -/
def decibarRe : Re :=
  .cat (.cls ['D', 'd'])
       (.cat (rstr "eci".data) (.cat (rstr "bar".data) (.cat (.chr 's') .eol)))

/-- r"(hPa|mb|([Mm]|[Mm]illi)bar(s)?)$" -/
def hPaRe : Re :=
  .cat (.alt (rstr "hPa".data)
             (.alt (rstr "mb".data)
                   (.cat (.alt (.cls ['M', 'm']) (.cat (.cls ['M', 'm']) (rstr "illi".data)))
                         (.cat (rstr "bar".data) (.opt (.chr 's'))))))
       .eol

/-- r"(Pa|[Pp]ascal(s)?)$" -/
def paRe : Re :=
  .cat (.alt (rstr "Pa".data)
             (.cat (.cls ['P', 'p']) (.cat (rstr "ascal".data) (.opt (.chr 's')))))
       .eol

/-- r"K$" -/
def kelvinRe : Re := .cat (.chr 'K') .eol

/-- class UnitsConverter: an ordered table of Conversion entries. -/
structure UnitsConverter where
  units : List Conversion

namespace UnitsConverter

/-- First registry entry, in table order, whose regex matches the
unit string (the loop of to_si). -/
def firstMatch (cv : UnitsConverter) (u : String) : Option Conversion :=
  cv.units.find? (fun entry => pyMatch entry.regex u)

/-- UnitsConverter.to_si: scan the table; return (type, factor) of the first
match; none models the UnitsError "not found in converter". -/
def to_si (cv : UnitsConverter) (u : String) : Option (Units × ℚ) :=
  (cv.firstMatch u).map (fun entry => (entry.type, entry.factor))

/-- UnitsConverter.from_si: same lookup, inverted factor. -/
def from_si (cv : UnitsConverter) (u : String) : Option (Units × ℚ) :=
  (cv.to_si u).map (fun p => (p.1, 1 / p.2))

/-- UnitsConverter.convert: to_si(source) * from_si(destination), requiring
equal dimensional types; none models the UnitsError cases (source not
found, destination not found, or incompatible types). -/
def convert (cv : UnitsConverter) (source destination : String) : Option ℚ :=
  match cv.to_si source, cv.from_si destination with
  | some (t₁, f₁), some (t₂, f₂) => if t₁ = t₂ then some (f₁ * f₂) else none
  | _, _ => none

end UnitsConverter

/-- The default registry (units_converter.py lines 111-117). -/
def unitsDefault : List Conversion :=
  [⟨meterRe, 1, distance⟩,
   ⟨atmRe, 101325, pressure⟩,
   ⟨barRe, 100000, pressure⟩,
   ⟨decibarRe, 10000, pressure⟩,
   ⟨hPaRe, 100, pressure⟩,
   ⟨paRe, 1, pressure⟩,
   ⟨kelvinRe, 1, temperature⟩]

/-- basic_converter = UnitsConverter(_default). -/
def basic_converter : UnitsConverter := ⟨unitsDefault⟩

/-! ### cf_netcdf.py: dataset model

netCDF4 objects are modelled by plain records. Attribute values occurring
in the claims are strings, so the attribute bag maps strings to strings.
Errors mirror the Python exception classes the source distinguishes:
netCDF4 raises RuntimeError when creating a dimension or variable whose
name is already in use, KeyError on a missing mapping key, and
AttributeError from getncattr on a missing attribute. -/

inductive PyErr where
  | runtimeError : PyErr
  | keyError : PyErr
  | attributeError : PyErr
  | typeError : PyErr
  | unitsError : PyErr
  | fuelOut : PyErr
deriving DecidableEq, Repr

/-- A netCDF dimension: name and size. -/
structure NDim where
  name : String
  size : Nat
deriving DecidableEq, Repr

/-- A netCDF variable: name, the names of the dimensions it is indexed by,
its attribute bag, and its (flattened) data. -/
structure NVar where
  name : String
  dims : List String
  attrs : List (String × String)
  data : List ℚ
deriving DecidableEq, Repr

/-- A netCDF dataset: ordered dimensions and variables. -/
structure NDataset where
  dimensions : List NDim
  vars : List NVar
deriving DecidableEq, Repr

/-- Variable.getncattr: AttributeError when the attribute is absent. -/
def getncattr (v : NVar) (attr : String) : Except PyErr String :=
  match v.attrs.find? (fun p => p.1 == attr) with
  | some p => .ok p.2
  | none => .error .attributeError

namespace NDataset

/-- Dataset.createDimension: RuntimeError (name in use) when a dimension of
that name already exists, regardless of its size. The returned dataset is
the state left behind (unchanged on error). -/
def createDimension (ds : NDataset) (name : String) (size : Nat) :
    NDataset × Option PyErr :=
  if ds.dimensions.any (fun d => d.name == name) then
    (ds, some .runtimeError)
  else
    ({ ds with dimensions := ds.dimensions ++ [⟨name, size⟩] }, none)

/-- CfDataset.copy_dimension: just createDimension with the source
dimension's name and size (cf_netcdf.py lines 78-87). -/
def copy_dimension (ds : NDataset) (dimension : NDim) : NDataset × Option PyErr :=
  ds.createDimension dimension.name dimension.size

/-- Dataset.createVariable: KeyError when a named dimension does not exist,
RuntimeError when the variable name is already in use. -/
def createVariable (ds : NDataset) (name : String) (dims : List String)
    (attrs : List (String × String)) : NDataset × Option PyErr :=
  if dims.any (fun d => !(ds.dimensions.any (fun e => e.name == d))) then
    (ds, some .keyError)
  else if ds.vars.any (fun v => v.name == name) then
    (ds, some .runtimeError)
  else
    ({ ds with vars := ds.vars ++ [⟨name, dims, attrs, []⟩] }, none)

/-- Set (or overwrite) one attribute on the dataset's variable of the given
name (the setncattr step of copy_attribute). -/
def setAttr (ds : NDataset) (vname attr value : String) : NDataset :=
  { ds with
    vars := ds.vars.map (fun v =>
      if v.name == vname then
        { v with attrs := v.attrs.filter (fun p => p.1 != attr) ++ [(attr, value)] }
      else v) }

/-- CfDataset.copy_attribute: copy one attribute of a foreign variable onto
this dataset's like-named variable; AttributeError if the source lacks it. -/
def copy_attribute (ds : NDataset) (var : NVar) (attr : String) :
    NDataset × Option PyErr :=
  match getncattr var attr with
  | .ok value => (ds.setAttr var.name attr value, none)
  | .error e => (ds, some e)

/-- CfDataset.copy_variable_data: overwrite the like-named variable's data
with the source variable's data; KeyError if no such variable exists. -/
def copy_variable_data (ds : NDataset) (var : NVar) : NDataset × Option PyErr :=
  if ds.vars.any (fun v => v.name == var.name) then
    ({ ds with
       vars := ds.vars.map (fun v =>
         if v.name == var.name then { v with data := var.data } else v) },
     none)
  else
    (ds, some .keyError)

/-- The attribute-copying loop at the end of copy_variable_metadata: copy
every source attribute except _FillValue onto the new variable. -/
def copyAttrsLoop (ds : NDataset) (var : NVar) : List (String × String) → NDataset × Option PyErr
  | [] => (ds, none)
  | (attr, _) :: rest =>
    if attr == "_FillValue" then ds.copyAttrsLoop var rest
    else
      match ds.copy_attribute var attr with
      | (ds₁, none) => ds₁.copyAttrsLoop var rest
      | (ds₁, some e) => (ds₁, some e)

/-- One iteration of the dimension loop of copy_variable_metadata
(cf_netcdf.py lines 111-117), parameterised by the recursive
copy_variable call:

    try:
        self.copy_dimension(dimension)
        self.copy_variable(dataset.variables[dimension.name], dataset)
    except RuntimeError:
        if dimension.size != self.dimensions[dimension.name].size:
            raise

dname is the dimension's name; the Dimension object itself comes from the
source dataset (variable.get_dims()), and dataset.variables[...] raises
KeyError when the source has no like-named coordinate variable. -/
def copyDimStep (copyV : NDataset → NVar → NDataset → NDataset × Option PyErr)
    (dst : NDataset) (dname : String) (src : NDataset) : NDataset × Option PyErr :=
  match src.dimensions.find? (fun d => d.name == dname) with
  | none => (dst, some .keyError)
  | some dimension =>
    let tryBody : NDataset × Option PyErr :=
      match dst.copy_dimension dimension with
      | (dst₁, none) =>
        match src.vars.find? (fun v => v.name == dname) with
        | none => (dst₁, some .keyError)
        | some coordVar => copyV dst₁ coordVar src
      | (dst₁, some e) => (dst₁, some e)
    match tryBody with
    | (dst₂, none) => (dst₂, none)
    | (dst₂, some .runtimeError) =>
      match dst₂.dimensions.find? (fun d => d.name == dname) with
      | none => (dst₂, some .keyError)
      | some existing =>
        if dimension.size ≠ existing.size then (dst₂, some .runtimeError)
        else (dst₂, none)
    | (dst₂, some e) => (dst₂, some e)

/-- The dimension loop of copy_variable_metadata over all of the source
variable's dimension names, aborting at the first propagated error. -/
def copyDimsLoop (copyV : NDataset → NVar → NDataset → NDataset × Option PyErr)
    (dst : NDataset) : List String → NDataset → NDataset × Option PyErr
  | [], _ => (dst, none)
  | dname :: rest, src =>
    match copyDimStep copyV dst dname src with
    | (dst₁, none) => copyDimsLoop copyV dst₁ rest src
    | (dst₁, some e) => (dst₁, some e)

/-- The body of copy_variable_metadata, parameterised by the recursive
copy_variable call: run the dimension loop, then create the destination
variable with the source's dimension names and _FillValue (if present),
then copy every other attribute. -/
def copyVarMetaBody (copyV : NDataset → NVar → NDataset → NDataset × Option PyErr)
    (dst : NDataset) (var : NVar) (src : NDataset) : NDataset × Option PyErr :=
  match copyDimsLoop copyV dst var.dims src with
  | (dst₁, some e) => (dst₁, some e)
  | (dst₁, none) =>
    let fillAttrs : List (String × String) :=
      match var.attrs.find? (fun p => p.1 == "_FillValue") with
      | some p => [("_FillValue", p.2)]
      | none => []
    match dst₁.createVariable var.name var.dims fillAttrs with
    | (dst₂, some e) => (dst₂, some e)
    | (dst₂, none) => dst₂.copyAttrsLoop var var.attrs

/-- CfDataset.copy_variable with explicit recursion fuel: metadata first,
then data. The fuel only bounds the recursion depth through coordinate
variables; every claim is settled at a fuel large enough that the bound is
never hit. -/
def copy_variable : Nat → NDataset → NVar → NDataset → NDataset × Option PyErr
  | 0, dst, _, _ => (dst, some .fuelOut)
  | fuel + 1, dst, var, src =>
    match copyVarMetaBody (copy_variable fuel) dst var src with
    | (dst₁, some e) => (dst₁, some e)
    | (dst₁, none) => dst₁.copy_variable_data var

/-- CfDataset.copy_variable_metadata with explicit recursion fuel. -/
def copy_variable_metadata (fuel : Nat) (dst : NDataset) (var : NVar)
    (src : NDataset) : NDataset × Option PyErr :=
  copyVarMetaBody (copy_variable fuel) dst var src

end NDataset

/-! ### cf_netcdf.py: CfVariable -/

/-- The search loop of CfVariable.__init__ (cf_netcdf.py lines 20-31): the
first pressure coordinate whose name differs from the variable's own name
and appears among the variable's dimensions. -/
def cfVariableCoord (var : NVar) (pressure_coordinates : List NVar) : Option NVar :=
  pressure_coordinates.find? (fun c =>
    c.name != var.name && var.dims.contains c.name)

/-- CfVariable.vertically_remappable: true exactly when the loop found a
coordinate (the for/else of __init__). -/
def vertically_remappable (var : NVar) (pressure_coordinates : List NVar) : Bool :=
  (cfVariableCoord var pressure_coordinates).isSome

/-- Formalisation of the claim's wording for C4, for comparison with the
code's vertically_remappable: remappable iff EXACTLY ONE of the variable's
dimensions coincides with a registered pressure coordinate's name
(excluding the variable's own name). -/
def claimExactlyOneRemappable (var : NVar) (pressure_coordinates : List NVar) : Bool :=
  (var.dims.filter (fun d =>
    pressure_coordinates.any (fun c => c.name == d && c.name != var.name))).length == 1

/-- The amended condition: AT LEAST ONE such dimension. -/
def claimAtLeastOneRemappable (var : NVar) (pressure_coordinates : List NVar) : Bool :=
  1 ≤ (var.dims.filter (fun d =>
    pressure_coordinates.any (fun c => c.name == d && c.name != var.name))).length

/-! ### vertical_remap.py -/

/-- numpy searchsorted(a, v) with the default side='left' on a sorted
array: the first index whose element is ≥ v (the length when every element
is < v), i.e. the count of levels strictly above ground when a holds the
pressure coordinate and v the converted surface pressure. -/
def searchsorted (a : List ℚ) (v : ℚ) : Nat :=
  a.findIdx (fun x => v ≤ x)

/-- Python/numpy integer indexing with negative-index wraparound:
x[i] is x[len + i] for negative i; out-of-range indices are IndexError. -/
def pyGet (l : List ℚ) (i : Int) : Option ℚ :=
  let j : Int := if i < 0 then (l.length : Int) + i else i
  if 0 ≤ j then l.get? j.toNat else none

/-- class VerticalRemapper (vertical_remap.py lines 41-55). The source
always passes a level_map; Option models passing None. -/
structure VerticalRemapper where
  a : List ℚ
  b : List ℚ
  units : String
  level_map : Option (List Nat)

namespace VerticalRemapper

/-- VerticalRemapper.pressure (vertical_remap.py lines 57-71): convert the
a-coefficients' unit into the surface-pressure unit, then for each
level_map entry average the two adjacent half-level pressures. none models
the raising paths: UnitsError from convert, TypeError from len(None) when
no level_map was supplied, IndexError on an out-of-range coefficient. -/
def pressure (r : VerticalRemapper) (surface_pressure : ℚ) (units : String)
    (converter : UnitsConverter) : Option (List ℚ) := do
  let conversion ← converter.convert r.units units
  let lm ← r.level_map
  lm.mapM (fun level => do
    let al ← r.a.get? level
    let bl ← r.b.get? level
    let au ← r.a.get? (level + 1)
    let bu ← r.b.get? (level + 1)
    some ((0.5 : ℚ) * ((al * conversion + bl * surface_pressure)
                       + (au * conversion + bu * surface_pressure))))

end VerticalRemapper

/-- Piecewise-linear interpolation over knots sorted by strictly increasing
first component, with constant value fill outside the knot range: the
behaviour of scipy interp1d(x, y, bounds_error=False, fill_value=fill) at
a query point. (scipy additionally rejects fewer than two knots; no claim
evaluates the interpolant there.) -/
def interpEval : List (ℚ × ℚ) → ℚ → ℚ → ℚ
  | [], _, fill => fill
  | [(x₁, y₁)], t, fill => if t = x₁ then y₁ else fill
  | (x₁, y₁) :: (x₂, y₂) :: rest, t, fill =>
    if t < x₁ then fill
    else if t ≤ x₂ then y₁ + (y₂ - y₁) * (t - x₁) / (x₂ - x₁)
    else interpEval ((x₂, y₂) :: rest) t fill

/-- VerticalRemapper.remap_column (vertical_remap.py lines 74-91): build
the interpolant over (pressure, variable), evaluate it at the remapped
pressures. -/
def VerticalRemapper.remap_column (r : VerticalRemapper) (var pressure : List ℚ)
    (surface_pressure : ℚ) (pressure_units : String) (converter : UnitsConverter)
    (fill_value : ℚ) : Option (List ℚ × List ℚ) := do
  let p ← r.pressure surface_pressure pressure_units converter
  some (p, p.map (fun t => interpEval (pressure.zip var) t fill_value))

/-- The per-column assembly of remap_all (vertical_remap.py lines 174-192)
for a variable with no registered surface alias (sv is None): a sorted
search over the pressure coordinate finds the underground boundary
indices[i] = searchsorted(pressure, sp); the default surface sample is
x[i, indices[i]-1] (note the Python negative-index wraparound to the
deepest level when indices[i] = 0); the retained above-ground values plus
that sample, at the retained pressures plus the surface pressure, form the
column handed to remap_column, whose fill value is column[0]. Returns
(pressures, values, fill value). -/
def defaultSurfaceColumn (pressureCoord xvals : List ℚ) (sp : ℚ) :
    Option (List ℚ × List ℚ × ℚ) := do
  let idx := searchsorted pressureCoord sp
  let xs ← pyGet xvals ((idx : Int) - 1)
  let column := xvals.take idx ++ [xs]
  let p := pressureCoord.take idx ++ [sp]
  some (p, column, column.headD 0)

/-- The surface-sample unit-conversion step of remap_all (vertical_remap.py
lines 153-159) for a variable whose name is registered in
surface_variables:

    try:
        conversion = converter.convert(sv.getncattr("units"),
                                       variable.parent.getncattr("units"))
    except KeyError:
        conversion = 1.

Both getncattr calls raise AttributeError (not KeyError) when the units
attribute is missing, and convert raises UnitsError; only a KeyError is
turned into the no-op factor 1. -/
def surfaceConversion (sv var : NVar) (converter : UnitsConverter) :
    Except PyErr ℚ :=
  let tryBody : Except PyErr ℚ := do
    let svUnits ← getncattr sv "units"
    let varUnits ← getncattr var "units"
    match converter.convert svUnits varUnits with
    | some c => .ok c
    | none => .error .unitsError
  match tryBody with
  | .error .keyError => .ok 1
  | r => r

/-! ## Theorems

First some shared helper lemmas and sanity checks, then one theorem per
specification claim (with its witness or counterexample where called for). -/

example : basic_converter.convert "K" "Pa" = none := by decide
example : basic_converter.convert "foo" "Pa" = none := by decide
example : basic_converter.to_si "Millibars" = some (pressure, 100) := by decide
example : basic_converter.to_si "bars\n" = some (pressure, 100000) := by decide

/-- Valid indices turn List.getD into the successful List.get?. -/
theorem get?_eq_some_getD (l : List ℚ) (i : Nat) (h : i < l.length) :
    l.get? i = some (l.getD i 0) := by
  cases h' : l.get? i with
  | none => exact absurd (List.get?_eq_none.mp h') (Nat.not_le.mpr h)
  | some v => simp [List.getD, ← List.get?_eq_getElem?, h']

section
attribute [local semireducible] Rat.mul Rat.inv Rat.add Rat.sub Rat.ofScientific

example : basic_converter.convert "hPa" "Pa" = some 100 := by decide
example : basic_converter.convert "Pa" "hPa" = some (1 / 100) := by decide
example : basic_converter.convert "atm" "Pa" = some 101325 := by decide

/-- Claim C1: for a column with source pressures [100,500,900], values
[1,2,3] and surface pressure 950 in the same units ("hPa" to "hPa"
converts with factor 1) and no surface alias, the sorted search retains
all three levels (index 3), the deepest in-range value 3 is appended as
the surface sample at pressure 950, the fill value is the shallowest
retained value 1, and the interpolant built over that column returns 3 at
target pressure 900 and the fill value 1 at target pressure 50. -/
theorem claim_C1_column_and_interpolant :
    basic_converter.convert "hPa" "hPa" = some 1 ∧
    searchsorted [100, 500, 900] 950 = 3 ∧
    defaultSurfaceColumn [100, 500, 900] [1, 2, 3] 950 =
      some ([100, 500, 900, 950], [1, 2, 3, 3], 1) ∧
    interpEval ([100, 500, 900, 950].zip [1, 2, 3, 3]) 900 1 = 3 ∧
    interpEval ([100, 500, 900, 950].zip [1, 2, 3, 3]) 50 1 = 1 := by
  decide

/-- Claim C10: for a column whose surface pressure 50 lies below every
source-level pressure, the sorted search returns 0, the default surface
sample is taken from the deepest (last) source level through the Python
index -1 wraparound, and the column handed to the interpolation step is
the single sample (pressure 50, value 3). -/
theorem claim_C10_underground_wraparound :
    searchsorted [100, 500, 900] 50 = 0 ∧
    pyGet [1, 2, 3] ((0 : Int) - 1) = some 3 ∧
    defaultSurfaceColumn [100, 500, 900] [1, 2, 3] 50 = some ([50], [3], 3) := by
  decide

/-- Claim C6 (the code's decibar entry): the regex ([Dd]eci)bar(s)$ demands
the trailing s, so "decibar" matches no registry entry and to_si fails,
while "decibars" resolves to dimensional type pressure with factor 10000. -/
theorem claim_C6_decibar_requires_plural :
    basic_converter.to_si "decibar" = none ∧
    basic_converter.to_si "decibars" = some (pressure, 10000) := by
  decide

/-- Claim C3, counterexample: constructed without a level_map (None), the
pressure method fails (len(None) raises) instead of returning one level
per coefficient pair a[i]*conv + b[i]*sp. -/
theorem claim_C3_counterexample :
    (VerticalRemapper.mk [0, 10] [0, 1] "hPa" none).pressure 1000 "hPa" basic_converter
      = none ∧
    (VerticalRemapper.mk [0, 10] [0, 1] "hPa" none).pressure 1000 "hPa" basic_converter
      ≠ some [0 * 1 + 0 * 1000, 10 * 1 + 1 * 1000] := by
  decide

end

/-- Claim C3 (amended): VerticalRemapper.pressure has no per-coefficient
mode; it always iterates over the level_map, so a remapper holding no
level_map fails for every surface pressure, unit string and converter. -/
theorem claim_C3_amended_no_level_map_fails (a b : List ℚ) (u us : String)
    (sp : ℚ) (cv : UnitsConverter) :
    (VerticalRemapper.mk a b u none).pressure sp us cv = none := by
  simp only [VerticalRemapper.pressure]
  cases h : cv.convert (VerticalRemapper.mk a b u none).units us <;> simp [h]

/-- The mapM at the heart of VerticalRemapper.pressure succeeds and equals
the mean-of-adjacent-half-levels map when every level_map entry indexes
into the coefficient lists. -/
theorem pressure_mapM_eq (a b : List ℚ) (conversion sp : ℚ) (lm : List Nat)
    (ha : ∀ level ∈ lm, level + 1 < a.length)
    (hb : ∀ level ∈ lm, level + 1 < b.length) :
    (lm.mapM (fun level => do
      let al ← a.get? level
      let bl ← b.get? level
      let au ← a.get? (level + 1)
      let bu ← b.get? (level + 1)
      some ((0.5 : ℚ) * ((al * conversion + bl * sp) + (au * conversion + bu * sp))))) =
    some (lm.map (fun level =>
      (0.5 : ℚ) * ((a.getD level 0 * conversion + b.getD level 0 * sp)
        + (a.getD (level + 1) 0 * conversion + b.getD (level + 1) 0 * sp)))) := by
  induction lm with
  | nil => rfl
  | cons hd tl ih =>
    have ha1 : hd < a.length := Nat.lt_of_succ_lt (ha hd (by simp))
    have ha2 : hd + 1 < a.length := ha hd (by simp)
    have hb1 : hd < b.length := Nat.lt_of_succ_lt (hb hd (by simp))
    have hb2 : hd + 1 < b.length := hb hd (by simp)
    have ihtl := ih (fun level hmem => ha level (by simp [hmem]))
      (fun level hmem => hb level (by simp [hmem]))
    simp only [List.mapM_cons, get?_eq_some_getD a hd ha1, get?_eq_some_getD b hd hb1,
      get?_eq_some_getD a (hd + 1) ha2, get?_eq_some_getD b (hd + 1) hb2, ihtl,
      Option.bind_some, Option.some_bind, List.map_cons]
    rfl

/-- Claim C2: with a level_map supplied, pressure returns one output per
level_map entry, entry i for level being the arithmetic mean of the two
adjacent half-level pressures a[level]*conv + b[level]*sp and
a[level+1]*conv + b[level+1]*sp, with conv = convert(self.units, units). -/
theorem claim_C2_pressure_with_level_map (r : VerticalRemapper) (sp : ℚ)
    (us : String) (cv : UnitsConverter) (conv : ℚ) (lm : List Nat)
    (hconv : cv.convert r.units us = some conv)
    (hlm : r.level_map = some lm)
    (ha : ∀ level ∈ lm, level + 1 < r.a.length)
    (hb : ∀ level ∈ lm, level + 1 < r.b.length) :
    r.pressure sp us cv = some (lm.map (fun level =>
      (0.5 : ℚ) * ((r.a.getD level 0 * conv + r.b.getD level 0 * sp)
        + (r.a.getD (level + 1) 0 * conv + r.b.getD (level + 1) 0 * sp)))) := by
  simp only [VerticalRemapper.pressure, hconv, hlm, Option.some_bind]
  exact pressure_mapM_eq r.a r.b conv sp lm ha hb

section
attribute [local semireducible] Rat.mul Rat.inv Rat.add Rat.sub Rat.ofScientific

/-- Witness for claim C2 at a = [0,10,20], b = [0,1,2], level_map = [0,1],
surface pressure 1000, matching units: the two full-level pressures are
the means 505 and 1515. -/
theorem claim_C2_witness :
    (VerticalRemapper.mk [0, 10, 20] [0, 1, 2] "hPa" (some [0, 1])).pressure 1000 "hPa"
      basic_converter = some [505, 1515] := by
  have h := claim_C2_pressure_with_level_map
    (VerticalRemapper.mk [0, 10, 20] [0, 1, 2] "hPa" (some [0, 1])) 1000 "hPa"
    basic_converter 1 [0, 1] (by decide) rfl (by decide) (by decide)
  rw [h]
  norm_num [List.getD, List.get?]

end

/-- Claim C5: convert fails exactly when the source matches no registry
entry, the destination matches no registry entry, or the first-matching
entries disagree in dimensional type (equality of Units being
component-wise over the seven exponents); otherwise it returns the source
factor times the inverted destination factor, both taken from the first
matching entries in table order. -/
theorem claim_C5_convert_characterisation (cv : UnitsConverter) (s d : String) :
    (cv.convert s d = none ↔
      cv.firstMatch s = none ∨ cv.firstMatch d = none ∨
        ∃ u v, cv.firstMatch s = some u ∧ cv.firstMatch d = some v ∧ u.type ≠ v.type) ∧
    (∀ u v, cv.firstMatch s = some u → cv.firstMatch d = some v → u.type = v.type →
      cv.convert s d = some (u.factor * (1 / v.factor))) := by
  cases hs : cv.firstMatch s with
  | none =>
    have hc : cv.convert s d = none := by
      simp [UnitsConverter.convert, UnitsConverter.to_si, hs]
    refine ⟨?_, ?_⟩
    · rw [hc]
      simp [hs]
    · intro u v hu _ _
      exact Option.noConfusion hu
  | some u₀ =>
    have hts : cv.to_si s = some (u₀.type, u₀.factor) := by
      simp [UnitsConverter.to_si, hs]
    cases hd : cv.firstMatch d with
    | none =>
      have htd : cv.from_si d = none := by
        simp [UnitsConverter.from_si, UnitsConverter.to_si, hd]
      have hc : cv.convert s d = none := by
        unfold UnitsConverter.convert
        rw [hts, htd]
      refine ⟨?_, ?_⟩
      · rw [hc]
        simp [hs, hd]
      · intro u v _ hv _
        exact Option.noConfusion hv
    | some v₀ =>
      have htd : cv.from_si d = some (v₀.type, 1 / v₀.factor) := by
        simp [UnitsConverter.from_si, UnitsConverter.to_si, hd]
      have hc : cv.convert s d
          = if u₀.type = v₀.type then some (u₀.factor * (1 / v₀.factor)) else none := by
        unfold UnitsConverter.convert
        rw [hts, htd]
      by_cases ht : u₀.type = v₀.type
      · rw [if_pos ht] at hc
        refine ⟨?_, ?_⟩
        · rw [hc]
          constructor
          · intro h
            exact Option.noConfusion h
          · rintro (h | h | ⟨u, v, hu, hv, hty⟩)
            · exact Option.noConfusion h
            · exact Option.noConfusion h
            · injection hu with hu
              injection hv with hv
              subst hu
              subst hv
              exact absurd ht hty
        · intro u v hu hv _
          injection hu with hu
          injection hv with hv
          subst hu
          subst hv
          exact hc
      · rw [if_neg ht] at hc
        refine ⟨?_, ?_⟩
        · rw [hc]
          constructor
          · intro _
            exact Or.inr (Or.inr ⟨u₀, v₀, rfl, rfl, ht⟩)
          · intro _
            rfl
        · intro u v hu hv hty
          injection hu with hu
          injection hv with hv
          subst hu
          subst hv
          exact absurd hty ht

/-- Witness for claim C5 at source "hPa" and destination "Pa": both match
pressure entries (factors 100 and 1), so convert returns 100 * (1/1). -/
theorem claim_C5_witness :
    basic_converter.convert "hPa" "Pa" = some ((100 : ℚ) * (1 / 1)) :=
  (claim_C5_convert_characterisation basic_converter "hPa" "Pa").2
    ⟨hPaRe, 100, pressure⟩ ⟨paRe, 1, pressure⟩ (by decide) (by decide) rfl

/-- Claim C4, counterexample: a variable "v" indexed by two pressure
coordinates "p1" and "p2" is classified remappable by the code (the search
loop stops at the first match), while the claim's exactly-one condition
rejects it. -/
theorem claim_C4_counterexample :
    vertically_remappable ⟨"v", ["p1", "p2"], [], []⟩
      [⟨"p1", ["p1"], [], []⟩, ⟨"p2", ["p2"], [], []⟩] = true ∧
    claimExactlyOneRemappable ⟨"v", ["p1", "p2"], [], []⟩
      [⟨"p1", ["p1"], [], []⟩, ⟨"p2", ["p2"], [], []⟩] = false := by
  decide

/-- Claim C4 (amended): a variable is vertically remappable iff AT LEAST
ONE of its dimensions coincides with a registered pressure coordinate's
name (excluding the case where the variable itself is that coordinate);
with several pressure-coordinate dimensions the variable is still
remappable, using the first matching coordinate. -/
theorem claim_C4_amended_at_least_one (var : NVar) (pcs : List NVar) :
    vertically_remappable var pcs = claimAtLeastOneRemappable var pcs := by
  rw [Bool.eq_iff_iff]
  unfold vertically_remappable claimAtLeastOneRemappable cfVariableCoord
  rw [List.find?_isSome, decide_eq_true_eq]
  constructor
  · rintro ⟨c, hmem, hprop⟩
    rw [Bool.and_eq_true] at hprop
    obtain ⟨hne, hcont⟩ := hprop
    have hdmem : c.name ∈ var.dims := by simpa using hcont
    have hfmem : c.name ∈ var.dims.filter (fun d =>
        pcs.any (fun x => x.name == d && x.name != var.name)) := by
      rw [List.mem_filter]
      refine ⟨hdmem, ?_⟩
      rw [List.any_eq_true]
      exact ⟨c, hmem, by simp [hne]⟩
    have hpos := List.length_pos.mpr (List.ne_nil_of_mem hfmem)
    omega
  · intro hlen
    have hne : var.dims.filter (fun d =>
        pcs.any (fun x => x.name == d && x.name != var.name)) ≠ [] := by
      intro hnil
      rw [hnil] at hlen
      simp at hlen
    obtain ⟨d, hd⟩ := List.exists_mem_of_ne_nil _ hne
    rw [List.mem_filter] at hd
    obtain ⟨hdmem, hq⟩ := hd
    rw [List.any_eq_true] at hq
    obtain ⟨c, hcmem, hc⟩ := hq
    rw [Bool.and_eq_true] at hc
    obtain ⟨hcd, hcne⟩ := hc
    refine ⟨c, hcmem, ?_⟩
    rw [Bool.and_eq_true]
    refine ⟨hcne, ?_⟩
    have hcd' : c.name = d := by simpa using hcd
    rw [hcd']
    simpa using hdmem

/-- Claim C7: during the recursive metadata copy, a source dimension whose
name already exists in the destination makes copy_dimension raise
RuntimeError; the handler then re-raises exactly when the sizes differ,
and when they coincide the conflict is a no-op (destination unchanged) and
the dimension loop of copy_variable_metadata proceeds with the remaining
dimensions. -/
theorem claim_C7_dimension_conflict
    (copyV : NDataset → NVar → NDataset → NDataset × Option PyErr)
    (dst src : NDataset) (dname : String) (rest : List String) (d e : NDim)
    (hsrc : src.dimensions.find? (fun x => x.name == dname) = some d)
    (hdst : dst.dimensions.find? (fun x => x.name == dname) = some e) :
    (d.size = e.size →
      NDataset.copyDimsLoop copyV dst (dname :: rest) src =
        NDataset.copyDimsLoop copyV dst rest src) ∧
    (d.size ≠ e.size →
      NDataset.copyDimsLoop copyV dst (dname :: rest) src =
        (dst, some PyErr.runtimeError)) := by
  have hdname : d.name = dname := by
    have h := List.find?_some hsrc
    simpa using h
  have hany : dst.dimensions.any (fun x => x.name == d.name) = true := by
    rw [List.any_eq_true]
    refine ⟨e, List.mem_of_find?_eq_some hdst, ?_⟩
    have h₂ : (e.name == dname) = true := by
      simpa using @List.find?_some NDim (fun x => x.name == dname) e dst.dimensions hdst
    rw [hdname]
    exact h₂
  have hstep : NDataset.copyDimStep copyV dst dname src =
      if d.size ≠ e.size then (dst, some PyErr.runtimeError) else (dst, none) := by
    simp only [NDataset.copyDimStep, hsrc, NDataset.copy_dimension,
      NDataset.createDimension, hany, if_true, hdst]
  constructor
  · intro hsz
    have hstep₁ : NDataset.copyDimStep copyV dst dname src = (dst, none) := by
      rw [hstep, if_neg (not_not_intro hsz)]
    simp only [NDataset.copyDimsLoop, hstep₁]
  · intro hsz
    have hstep₂ : NDataset.copyDimStep copyV dst dname src =
        (dst, some PyErr.runtimeError) := by
      rw [hstep, if_pos hsz]
    simp only [NDataset.copyDimsLoop, hstep₂]

/-- Witness for claim C7: destination and source both hold dimension
("x", 5); the conflicting first dimension is tolerated as a no-op and the
loop finishes with the destination unchanged. -/
theorem claim_C7_witness :
    NDataset.copyDimsLoop (NDataset.copy_variable 3) ⟨[⟨"x", 5⟩], []⟩ ["x"]
      ⟨[⟨"x", 5⟩], []⟩ = (⟨[⟨"x", 5⟩], []⟩, none) := by
  have h := (claim_C7_dimension_conflict (NDataset.copy_variable 3)
    ⟨[⟨"x", 5⟩], []⟩ ⟨[⟨"x", 5⟩], []⟩ "x" [] ⟨"x", 5⟩ ⟨"x", 5⟩ rfl rfl).1 rfl
  rw [h]
  rfl

/-- Claim C8, counterexample: copy_dimension of ("x", 3) into a dataset
already holding dimension ("x", 3) raises RuntimeError (createDimension
rejects the duplicate name even at matching size), refuting "does not
raise"; the returned state also shows the dimension is not duplicated. -/
theorem claim_C8_counterexample :
    NDataset.copy_dimension ⟨[⟨"x", 3⟩], []⟩ ⟨"x", 3⟩
      = (⟨[⟨"x", 3⟩], []⟩, some PyErr.runtimeError) := by
  rfl

/-- Claim C8 (amended): invoking copy_dimension for a dimension whose name
the dataset already holds raises RuntimeError regardless of size and
leaves the dataset unchanged (no duplicate); the matching-size tolerance
belongs to copy_variable_metadata's exception handler, not to
copy_dimension itself. -/
theorem claim_C8_amended_duplicate_raises (ds : NDataset) (d : NDim)
    (h : ds.dimensions.any (fun x => x.name == d.name) = true) :
    NDataset.copy_dimension ds d = (ds, some PyErr.runtimeError) := by
  simp [NDataset.copy_dimension, NDataset.createDimension, h]

/-- Witness for the amended claim C8 at a dataset holding ("t", 4) and a
second copy of the same dimension ("t", 4): the call raises and the
dataset is unchanged. -/
theorem claim_C8_witness :
    NDataset.copy_dimension ⟨[⟨"t", 4⟩], []⟩ ⟨"t", 4⟩
      = (⟨[⟨"t", 4⟩], []⟩, some PyErr.runtimeError) :=
  claim_C8_amended_duplicate_raises ⟨[⟨"t", 4⟩], []⟩ ⟨"t", 4⟩ (by decide)

/-- Claim C9 (code-bug evidence): for an aliased surface variable with no
units attribute, getncattr raises AttributeError, which the except-KeyError
handler of remap_all does not catch, so the conversion step propagates the
error instead of falling back to the no-op factor 1. -/
theorem claim_C9_missing_units_propagates :
    surfaceConversion ⟨"t2m", ["lat", "lon"], [], [280]⟩
      ⟨"t", ["p", "lat", "lon"], [("units", "K")], []⟩ basic_converter
      = Except.error PyErr.attributeError ∧
    surfaceConversion ⟨"t2m", ["lat", "lon"], [], [280]⟩
      ⟨"t", ["p", "lat", "lon"], [("units", "K")], []⟩ basic_converter
      ≠ Except.ok 1 := by
  refine ⟨rfl, ?_⟩
  intro h
  exact Except.noConfusion h

end Era5
